import Mathlib

/-!
Shallow embedding of the account persistence layer of the Level-Up-Miami
repository (`src/api/database/accountdatabase/accountdatabase.go`).

The Go code talks to PostgreSQL through a pgx connection pool.  We embed the
reachable database state (the `accountsettings` and `transaction_history`
tables together with the backend's id generators) as an explicit state value,
and each exported Go function as a state-passing Lean function returning the
pair of its caller-visible result and the successor state.  The semantics of
each SQL statement is translated against the schema created by
`InitializeAccountDatabase`:

* `accountsettings(account_id SERIAL PRIMARY KEY, username TEXT NOT NULL
  UNIQUE, email TEXT NOT NULL UNIQUE, password TEXT NOT NULL, email_verified
  BOOLEAN DEFAULT FALSE)` — the two UNIQUE constraints are what raise
  duplicate-key errors; `SERIAL` is a counter; `email_verified` defaults to
  false on INSERTs that omit it.
* `transaction_history(transaction_id UUID PRIMARY KEY DEFAULT
  gen_random_uuid(), …, status TEXT DEFAULT 'Pending...')` — the
  backend-generated primary key is modelled as a counter that never repeats,
  which captures exactly the uniqueness guarantee of `gen_random_uuid()`.

Infrastructure failures (network loss, timeouts) are not modelled: in this
model every backend round trip completes, so the only errors are constraint
violations.  The error *channel* of each Go function is still embedded
faithfully, so one can see which outcomes the code reports as errors and
which as ordinary return values.

`bcrypt` (golang.org/x/crypto/bcrypt) is a library dependency, not code of
this repository.  It is embedded structurally: a digest records the cost
factor, the per-call random salt, and a key derived from (cost, salt,
password); `GenerateFromPassword` receives the fresh salt explicitly as an
argument (standing for the library's internal randomness) and
`CompareHashAndPassword` re-derives the key from the digest's own cost and
salt.  The key-derivation function itself (`keyFn`, standing for bcrypt's
EksBlowfish setup) is a parameter of the whole model, so every theorem below
holds for an arbitrary derivation function.
-/

namespace AccountDB

/-- A bcrypt digest as stored in the `password` column: the cost factor, the
per-call salt, and the key derived from cost, salt and the plaintext.  The
real digest is a string encoding exactly these three components. -/
structure BcryptDigest where
  cost : Nat
  salt : String
  key : String
deriving DecidableEq

/-- The constant `bcrypt.DefaultCost` from golang.org/x/crypto/bcrypt, used by
`CreateUser` via `bcrypt.GenerateFromPassword(…, bcrypt.DefaultCost)`. -/
def bcryptDefaultCost : Nat := 10

variable (keyFn : Nat → String → String → String)

/-- Model of `bcrypt.GenerateFromPassword`: derive a key from the cost factor, a fresh
random salt (passed in explicitly here) and the plaintext, and package the
three into the digest. -/
def generateFromPassword (salt : String) (cost : Nat) (password : String) :
    BcryptDigest :=
  ⟨cost, salt, keyFn cost salt password⟩

/-- Model of `bcrypt.CompareHashAndPassword`: read cost and salt back out of the
digest, re-derive the key from the candidate password and compare it with the
digest's key.  Returns `true` on a match (the Go function returns a nil
error). -/
def compareHashAndPassword (digest : BcryptDigest) (password : String) :
    Bool :=
  keyFn digest.cost digest.salt password == digest.key

/-- The Go struct `User`: one row of `accountsettings`.  The `password`
column holds the bcrypt digest, never the plaintext. -/
structure User where
  id : Nat
  username : String
  email : String
  password : BcryptDigest
  emailVerified : Bool
deriving DecidableEq

/-- One row of `transaction_history`.  `transactionId` is the
backend-generated primary key; the JSONB payloads and the free-text notes are
kept as opaque strings, exactly as the Go code passes them through. -/
structure TransactionRecord where
  transactionId : Nat
  clientId : String
  transactionType : String
  itemsSent : String
  itemsReceived : String
  notes : String
  status : String
deriving DecidableEq

/-- The reachable database state: the two tables plus the backend's id
generators.  `nextAccountId` models the `SERIAL` sequence behind
`account_id`; `nextTransactionId` models `gen_random_uuid()` — both hand out
a value that no earlier row received. -/
structure AccountDatabase where
  accounts : List User
  nextAccountId : Nat
  transactions : List TransactionRecord
  nextTransactionId : Nat
deriving DecidableEq

/-- Backend errors reachable in this model: a unique-constraint violation
(`unique_violation` in PostgreSQL), which names the violated column through
the constraint name (`accountsettings_username_key` /
`accountsettings_email_key`). -/
inductive DBError where
  | duplicate (field : String)
deriving DecidableEq

/-- Row selection of `WHERE username = $1` on `accountsettings`: the first
row whose `username` column equals the argument (under the UNIQUE constraint
there is at most one). -/
def findByUsername (accounts : List User) (username : String) : Option User :=
  accounts.find? (fun a => a.username == username)

/-- Function `CreateUser`: hash the password with `bcrypt.GenerateFromPassword` at the
default cost (the fresh random salt is the `salt` argument), then
`INSERT INTO accountsettings (username, password, email) VALUES ($1,$2,$3)`.
The INSERT omits `account_id` (assigned by the sequence) and
`email_verified` (defaults to FALSE).  It fails, leaving the table untouched,
iff one of the UNIQUE constraints is violated. -/
def CreateUser (salt username password email : String)
    (db : AccountDatabase) : Except DBError Unit × AccountDatabase :=
  let hashedPassword := generateFromPassword keyFn salt bcryptDefaultCost password
  if db.accounts.any (fun a => a.username == username) then
    (.error (.duplicate "username"), db)
  else if db.accounts.any (fun a => a.email == email) then
    (.error (.duplicate "email"), db)
  else
    (.ok (), { db with
      accounts := db.accounts ++
        [⟨db.nextAccountId, username, email, hashedPassword, false⟩],
      nextAccountId := db.nextAccountId + 1 })

/-- Function `GetUserByUsername`: `SELECT … FROM accountsettings WHERE username = $1`
via `QueryRow`; `none` stands for the error return on `pgx.ErrNoRows`. -/
def GetUserByUsername (username : String) (db : AccountDatabase) :
    Option User :=
  findByUsername db.accounts username

/-- Function `ValidateCredentials`: `SELECT password, email_verified FROM
accountsettings WHERE username=$1`.  On `no rows in result set` the Go code
returns `(false, false, nil)` — an ordinary result, not an error.  On a row
it returns `(false, emailVerified, nil)` when `CompareHashAndPassword`
rejects the password and `(true, emailVerified, nil)` when it matches. -/
def ValidateCredentials (username password : String) (db : AccountDatabase) :
    Except DBError (Bool × Bool) :=
  match findByUsername db.accounts username with
  | none => .ok (false, false)
  | some a =>
    if compareHashAndPassword keyFn a.password password then
      .ok (true, a.emailVerified)
    else
      .ok (false, a.emailVerified)

/-- Function `VerifyUserEmail`: `UPDATE accountsettings SET email_verified = TRUE
WHERE username = $1` via `Exec`.  Every matching row gets the flag set; a
statement matching zero rows still succeeds (`Exec` reports zero rows
affected, not an error), and no constraint can be violated because
`email_verified` carries no UNIQUE constraint. -/
def VerifyUserEmail (username : String) (db : AccountDatabase) :
    Except DBError Unit × AccountDatabase :=
  (.ok (), { db with
    accounts := db.accounts.map (fun a =>
      if a.username == username then { a with emailVerified := true } else a) })

/-- Function `UpdateAccount`: `UPDATE accountsettings SET username = COALESCE($1,
username), email = COALESCE($2, email) WHERE username = $3` via `Exec`.
The Go parameters `newUsername`/`newEmail` are plain (non-pointer) strings,
so pgx always transmits them as non-NULL text values and each `COALESCE`
reduces to its first argument: matching rows get both columns overwritten
with the given strings (an empty string included).  A statement matching
zero rows succeeds.  The UPDATE fails with a unique-constraint violation iff
a row it does not touch already holds the new username (resp. email). -/
def UpdateAccount (username newUsername newEmail : String)
    (db : AccountDatabase) : Except DBError Unit × AccountDatabase :=
  if db.accounts.any (fun a => a.username == username) then
    if db.accounts.any (fun b =>
        b.username != username && b.username == newUsername) then
      (.error (.duplicate "username"), db)
    else if db.accounts.any (fun b =>
        b.username != username && b.email == newEmail) then
      (.error (.duplicate "email"), db)
    else
      (.ok (), { db with
        accounts := db.accounts.map (fun a =>
          if a.username == username then
            { a with username := newUsername, email := newEmail }
          else a) })
  else
    (.ok (), db)

/-- Function `AddTransaction`: `INSERT INTO transaction_history (client_id,
transaction_type, items_sent, items_received, notes, status) VALUES
($1,$2,$3,$4,$5,'Pending...')`.  The caller supplies no `transaction_id`;
the backend's `DEFAULT gen_random_uuid()` assigns a fresh one.  The Go
function returns only `error` — on success the caller sees `nil`, never the
generated id. -/
def AddTransaction (clientID transactionType itemsSent itemsReceived notes :
    String) (db : AccountDatabase) : Except DBError Unit × AccountDatabase :=
  (.ok (), { db with
    transactions := db.transactions ++
      [⟨db.nextTransactionId, clientID, transactionType, itemsSent,
        itemsReceived, notes, "Pending..."⟩],
    nextTransactionId := db.nextTransactionId + 1 })



/-! Concrete sample states used by the witnesses below. -/

/-- A sample key-derivation function instantiating the `keyFn` parameter in
concrete witnesses. -/
def sampleKeyFn : Nat → String → String → String :=
  fun cost salt password => toString cost ++ "$" ++ salt ++ "$" ++ password

/-- The state of a fresh database right after `InitializeAccountDatabase`:
both tables empty, both id generators at their first value. -/
def emptyDb : AccountDatabase := ⟨[], 1, [], 1⟩

/-- A state holding one account, alice, created with password `pw1`. -/
def dbAlice : AccountDatabase :=
  (CreateUser sampleKeyFn "saltA" "alice" "pw1" "alice@x.com" emptyDb).snd

/-- The row `CreateUser` stores for alice in `dbAlice`. -/
def userAlice : User :=
  ⟨1, "alice", "alice@x.com",
    generateFromPassword sampleKeyFn "saltA" bcryptDefaultCost "pw1", false⟩

/-- A state holding two accounts, alice and bob. -/
def dbAliceBob : AccountDatabase :=
  (CreateUser sampleKeyFn "saltB" "bob" "pw2" "bob@x.com" dbAlice).snd

/-- C1: when no account matches the username, `ValidateCredentials` returns
`(false, false)` with a nil error, for every password: absence of the account
is an ordinary boolean outcome, not an error. -/
theorem ValidateCredentials_unknown_username (db : AccountDatabase)
    (username password : String)
    (h : findByUsername db.accounts username = none) :
    ValidateCredentials keyFn username password db = .ok (false, false) := by
  unfold ValidateCredentials
  rw [h]

/-- Witness for C1 at a concrete state: `nouser` has no account in
`dbAlice`. -/
theorem ValidateCredentials_unknown_username_witness :
    findByUsername dbAlice.accounts "nouser" = none ∧
    ValidateCredentials sampleKeyFn "nouser" "anything" dbAlice =
      .ok (false, false) :=
  ⟨rfl, ValidateCredentials_unknown_username sampleKeyFn dbAlice "nouser"
    "anything" rfl⟩

/-- C2: when the account exists and the stored digest rejects the supplied
password, `ValidateCredentials` returns `(false, account.emailVerified)` with
a nil error: the stored verification flag is reported even on a failed
password check. -/
theorem ValidateCredentials_wrong_password (db : AccountDatabase)
    (username password : String) (a : User)
    (hfind : findByUsername db.accounts username = some a)
    (hverify : compareHashAndPassword keyFn a.password password = false) :
    ValidateCredentials keyFn username password db =
      .ok (false, a.emailVerified) := by
  unfold ValidateCredentials
  rw [hfind]
  simp [hverify]

/-- Witness for C2 at a concrete state: alice exists, `wrong` is not her
password. -/
theorem ValidateCredentials_wrong_password_witness :
    findByUsername dbAlice.accounts "alice" = some userAlice ∧
    compareHashAndPassword sampleKeyFn userAlice.password "wrong" = false ∧
    ValidateCredentials sampleKeyFn "alice" "wrong" dbAlice =
      .ok (false, userAlice.emailVerified) :=
  ⟨rfl, rfl, ValidateCredentials_wrong_password sampleKeyFn dbAlice "alice"
    "wrong" userAlice rfl rfl⟩


/-- C3: creating a fresh (username, email) pair and then fetching by that
username returns a row with the given username and email whose
`email_verified` flag is false (the INSERT leaves the column to its FALSE
default). -/
theorem CreateUser_then_GetUserByUsername (salt username password email :
    String) (db : AccountDatabase)
    (hu : ∀ a ∈ db.accounts, a.username ≠ username)
    (he : ∀ a ∈ db.accounts, a.email ≠ email) :
    (CreateUser keyFn salt username password email db).fst = .ok () ∧
    ∃ u, GetUserByUsername username
        (CreateUser keyFn salt username password email db).snd = some u ∧
      u.username = username ∧ u.email = email ∧ u.emailVerified = false := by
  have hu' : db.accounts.any (fun a => a.username == username) = false := by
    simp only [List.any_eq_false, beq_iff_eq]
    exact hu
  have he' : db.accounts.any (fun a => a.email == email) = false := by
    simp only [List.any_eq_false, beq_iff_eq]
    exact he
  have hfind : List.find? (fun a => a.username == username) db.accounts
      = none := by
    simp only [List.find?_eq_none, beq_iff_eq]
    exact hu
  refine ⟨by simp [CreateUser, hu', he'], ?_⟩
  refine ⟨⟨db.nextAccountId, username, email,
    generateFromPassword keyFn salt bcryptDefaultCost password, false⟩,
    ?_, rfl, rfl, rfl⟩
  simp only [CreateUser, hu', he', Bool.false_eq_true, if_false,
    GetUserByUsername, findByUsername, List.find?_append, hfind,
    Option.none_or]
  simp

/-- Witness for C3 at a concrete state: create bob into `dbAlice` and fetch
him back. -/
theorem CreateUser_then_GetUserByUsername_witness :
    (∀ a ∈ dbAlice.accounts, a.username ≠ "bob") ∧
    (∀ a ∈ dbAlice.accounts, a.email ≠ "bob@x.com") ∧
    ((CreateUser sampleKeyFn "saltB" "bob" "pw2" "bob@x.com" dbAlice).fst =
      .ok () ∧
    ∃ u, GetUserByUsername "bob"
        (CreateUser sampleKeyFn "saltB" "bob" "pw2" "bob@x.com" dbAlice).snd =
        some u ∧
      u.username = "bob" ∧ u.email = "bob@x.com" ∧ u.emailVerified = false) :=
  ⟨by decide, by decide,
    CreateUser_then_GetUserByUsername sampleKeyFn "saltB" "bob" "pw2"
      "bob@x.com" dbAlice (by decide) (by decide)⟩

/-- C4: a `CreateUser` call whose username already has a row fails with the
duplicate error on the `username` constraint and leaves the state unchanged;
one whose username is fresh but whose email already has a row fails with the
duplicate error on the `email` constraint and leaves the state unchanged. -/
theorem CreateUser_duplicate (salt username password email : String)
    (db : AccountDatabase) :
    (db.accounts.any (fun a => a.username == username) = true →
      CreateUser keyFn salt username password email db =
        (.error (.duplicate "username"), db)) ∧
    (db.accounts.any (fun a => a.username == username) = false →
      db.accounts.any (fun a => a.email == email) = true →
      CreateUser keyFn salt username password email db =
        (.error (.duplicate "email"), db)) := by
  constructor
  · intro h
    simp [CreateUser, h]
  · intro h1 h2
    simp [CreateUser, h1, h2]

/-- Witness for C4 at a concrete state: re-creating `alice` (fresh email)
fails on the username constraint; creating `bob` with alice's email fails on
the email constraint; both leave `dbAlice` unchanged. -/
theorem CreateUser_duplicate_witness :
    CreateUser sampleKeyFn "s2" "alice" "pw9" "other@x.com" dbAlice =
      (.error (.duplicate "username"), dbAlice) ∧
    CreateUser sampleKeyFn "s2" "bob" "pw9" "alice@x.com" dbAlice =
      (.error (.duplicate "email"), dbAlice) :=
  ⟨(CreateUser_duplicate sampleKeyFn "s2" "alice" "pw9" "other@x.com"
      dbAlice).1 rfl,
   (CreateUser_duplicate sampleKeyFn "s2" "bob" "pw9" "alice@x.com"
      dbAlice).2 rfl rfl⟩


/-- C5, evaluation at the failing input: the Go `UpdateAccount` takes plain
(non-pointer) strings, so a caller can never transmit SQL NULL and the
partial-update branch of the `COALESCE` is unreachable.  Passing the Go zero
value `""` for `newUsername` — the only way to "omit" it — overwrites the
username column with the empty string instead of leaving it unchanged. -/
theorem UpdateAccount_empty_string_overwrites :
    (UpdateAccount "alice" "" "newmail@x.com" dbAlice).fst = .ok () ∧
    (UpdateAccount "alice" "" "newmail@x.com" dbAlice).snd.accounts.map
      (fun u => (u.username, u.email)) = [("", "newmail@x.com")] :=
  ⟨rfl, rfl⟩

/-- C6, counterexample: `UpdateAccount` on a username with no matching row
does not fail at all — `Exec` of an UPDATE matching zero rows reports
success, so the call returns a nil error and the unchanged state, not a
not-found error. -/
theorem UpdateAccount_missing_user_counterexample :
    findByUsername dbAlice.accounts "bob" = none ∧
    UpdateAccount "bob" "x" "y@x.com" dbAlice = (.ok (), dbAlice) :=
  ⟨rfl, rfl⟩

/-- C6 as amended: an update naming a missing username is a no-op success;
an update whose new username (resp. new email) already belongs to a row the
statement does not touch fails with the duplicate error on that constraint
and leaves the state unchanged. -/
theorem UpdateAccount_missing_noop_and_duplicate
    (username newUsername newEmail : String) (db : AccountDatabase) :
    (db.accounts.any (fun a => a.username == username) = false →
      UpdateAccount username newUsername newEmail db = (.ok (), db)) ∧
    (db.accounts.any (fun a => a.username == username) = true →
      db.accounts.any (fun b =>
        b.username != username && b.username == newUsername) = true →
      UpdateAccount username newUsername newEmail db =
        (.error (.duplicate "username"), db)) ∧
    (db.accounts.any (fun a => a.username == username) = true →
      db.accounts.any (fun b =>
        b.username != username && b.username == newUsername) = false →
      db.accounts.any (fun b =>
        b.username != username && b.email == newEmail) = true →
      UpdateAccount username newUsername newEmail db =
        (.error (.duplicate "email"), db)) := by
  refine ⟨?_, ?_, ?_⟩
  · intro h
    simp [UpdateAccount, h]
  · intro h1 h2
    simp [UpdateAccount, h1, h2]
  · intro h1 h2 h3
    simp [UpdateAccount, h1, h2, h3]

/-- Witness for the amended C6 at concrete states: updating the missing
`carol` is a no-op success; renaming bob to `alice` hits the username
constraint; moving bob onto alice's email hits the email constraint. -/
theorem UpdateAccount_missing_noop_and_duplicate_witness :
    UpdateAccount "carol" "x" "y@x.com" dbAliceBob = (.ok (), dbAliceBob) ∧
    UpdateAccount "bob" "alice" "bob@x.com" dbAliceBob =
      (.error (.duplicate "username"), dbAliceBob) ∧
    UpdateAccount "bob" "bobby" "alice@x.com" dbAliceBob =
      (.error (.duplicate "email"), dbAliceBob) :=
  ⟨(UpdateAccount_missing_noop_and_duplicate "carol" "x" "y@x.com"
      dbAliceBob).1 rfl,
   (UpdateAccount_missing_noop_and_duplicate "bob" "alice" "bob@x.com"
      dbAliceBob).2.1 rfl rfl,
   (UpdateAccount_missing_noop_and_duplicate "bob" "bobby" "alice@x.com"
      dbAliceBob).2.2 rfl rfl rfl⟩

/-- C10: when no account matches the username, `VerifyUserEmail` returns a
nil error and leaves every account unchanged — the UPDATE matches zero rows
and `Exec` reports that as success, not as a not-found error. -/
theorem VerifyUserEmail_missing_user_noop (username : String)
    (db : AccountDatabase)
    (h : findByUsername db.accounts username = none) :
    VerifyUserEmail username db = (.ok (), db) := by
  have hall : ∀ a ∈ db.accounts, (a.username == username) = false := by
    intro a ha
    have := (List.find?_eq_none.mp h) a ha
    exact Bool.not_eq_true _ ▸ (by simpa using this)
  have hmap : db.accounts.map (fun a =>
      if a.username == username then { a with emailVerified := true }
      else a) = db.accounts := by
    have : ∀ a ∈ db.accounts, (fun a =>
        if a.username == username then { a with emailVerified := true }
        else a) a = id a := by
      intro a ha
      simp [hall a ha]
    rw [List.map_congr_left this, List.map_id]
  unfold VerifyUserEmail
  rw [hmap]

/-- Witness for C10 at a concrete state: `bob` has no row in `dbAlice`. -/
theorem VerifyUserEmail_missing_user_noop_witness :
    findByUsername dbAlice.accounts "bob" = none ∧
    VerifyUserEmail "bob" dbAlice = (.ok (), dbAlice) :=
  ⟨rfl, VerifyUserEmail_missing_user_noop "bob" dbAlice rfl⟩


/-- A state where alice's email has been verified. -/
def dbAliceVerified : AccountDatabase := (VerifyUserEmail "alice" dbAlice).snd

/-- A state holding one recorded transaction. -/
def dbTx1 : AccountDatabase :=
  (AddTransaction "client1" "purchase" "items" "x" "note" emptyDb).snd

/-- C7: `VerifyUserEmail` succeeds, the fetched row afterwards carries
`emailVerified = true`, and on a state whose matching rows are already
verified the call is a no-op success: same state, nil error. -/
theorem VerifyUserEmail_sets_flag_and_idempotent (username : String)
    (db : AccountDatabase) :
    (VerifyUserEmail username db).fst = .ok () ∧
    (∀ a, findByUsername db.accounts username = some a →
      findByUsername (VerifyUserEmail username db).snd.accounts username =
        some { a with emailVerified := true }) ∧
    ((∀ a ∈ db.accounts, a.username = username → a.emailVerified = true) →
      VerifyUserEmail username db = (.ok (), db)) := by
  refine ⟨rfl, ?_, ?_⟩
  · intro a hfind
    have hfind' : List.find? (fun u : User => u.username == username)
        db.accounts = some a := hfind
    have hpa := List.find?_some hfind'
    simp only [] at hpa
    have hcomp : ((fun u : User => u.username == username) ∘ (fun u : User =>
        if u.username == username then { u with emailVerified := true }
        else u)) = (fun u : User => u.username == username) := by
      funext b
      simp only [Function.comp_apply]
      by_cases hb : (b.username == username) = true
      · rw [if_pos hb]
      · rw [if_neg hb]
    show List.find? (fun u : User => u.username == username)
        (List.map (fun u : User =>
          if u.username == username then { u with emailVerified := true }
          else u) db.accounts) = some { a with emailVerified := true }
    rw [List.find?_map, hcomp, hfind']
    show some (if a.username == username then { a with emailVerified := true }
      else a) = some { a with emailVerified := true }
    rw [if_pos hpa]
  · intro h
    have hfa : ∀ u ∈ db.accounts, (fun u : User =>
        if u.username == username then { u with emailVerified := true }
        else u) u = id u := by
      intro u hu
      simp only [id]
      by_cases hb : (u.username == username) = true
      · have hv : u.emailVerified = true := h u hu (by simpa using hb)
        rw [if_pos hb]
        cases u
        subst hv
        rfl
      · rw [if_neg hb]
    have hmap : db.accounts.map (fun u : User =>
        if u.username == username then { u with emailVerified := true }
        else u) = db.accounts := by
      rw [List.map_congr_left hfa, List.map_id]
    unfold VerifyUserEmail
    rw [hmap]

/-- Witness for C7 at concrete states: verifying alice sets her flag, and
re-verifying her in the already-verified state changes nothing. -/
theorem VerifyUserEmail_sets_flag_and_idempotent_witness :
    findByUsername dbAlice.accounts "alice" = some userAlice ∧
    findByUsername (VerifyUserEmail "alice" dbAlice).snd.accounts "alice" =
      some { userAlice with emailVerified := true } ∧
    (∀ a ∈ dbAliceVerified.accounts, a.username = "alice" →
      a.emailVerified = true) ∧
    VerifyUserEmail "alice" dbAliceVerified = (.ok (), dbAliceVerified) :=
  ⟨rfl,
   (VerifyUserEmail_sets_flag_and_idempotent "alice" dbAlice).2.1 userAlice
     rfl,
   by decide,
   (VerifyUserEmail_sets_flag_and_idempotent "alice" dbAliceVerified).2.2
     (by decide)⟩

/-- C8: hashing the same plaintext under two different salts (bcrypt draws a
fresh random salt on every call) yields two different digests, and the
comparison accepts the original plaintext against each of them — for every
key-derivation function. -/
theorem generateFromPassword_salts_distinct_verify (password s1 s2 : String)
    (h : s1 ≠ s2) :
    generateFromPassword keyFn s1 bcryptDefaultCost password ≠
      generateFromPassword keyFn s2 bcryptDefaultCost password ∧
    compareHashAndPassword keyFn
      (generateFromPassword keyFn s1 bcryptDefaultCost password) password =
      true ∧
    compareHashAndPassword keyFn
      (generateFromPassword keyFn s2 bcryptDefaultCost password) password =
      true := by
  refine ⟨?_, ?_, ?_⟩
  · intro hc
    exact h (congrArg BcryptDigest.salt hc)
  · simp [compareHashAndPassword, generateFromPassword]
  · simp [compareHashAndPassword, generateFromPassword]

/-- Witness for C8 at concrete salts and plaintext. -/
theorem generateFromPassword_salts_distinct_verify_witness :
    "saltA" ≠ "saltB" ∧
    (generateFromPassword sampleKeyFn "saltA" bcryptDefaultCost "pw" ≠
      generateFromPassword sampleKeyFn "saltB" bcryptDefaultCost "pw" ∧
    compareHashAndPassword sampleKeyFn
      (generateFromPassword sampleKeyFn "saltA" bcryptDefaultCost "pw")
      "pw" = true ∧
    compareHashAndPassword sampleKeyFn
      (generateFromPassword sampleKeyFn "saltB" bcryptDefaultCost "pw")
      "pw" = true) :=
  ⟨by decide, generateFromPassword_salts_distinct_verify sampleKeyFn "pw"
    "saltA" "saltB" (by decide)⟩

/-- C9, counterexample: two successive `AddTransaction` calls with different
arguments return the identical caller-visible value — the Go function's
return type is only `error`, so the caller receives `ok ()` both times and
never a transactionId, let alone one distinct from the previous call's. -/
theorem AddTransaction_no_returned_id_counterexample :
    (AddTransaction "client1" "purchase" "items" "x" "note" emptyDb).fst =
    (AddTransaction "client2" "trade" "a" "b" "c"
      (AddTransaction "client1" "purchase" "items" "x" "note"
        emptyDb).snd).fst :=
  rfl

/-- C9 as amended: `AddTransaction` succeeds and appends a row whose status
is `Pending...` and whose transactionId comes from the backend generator —
the caller supplies no id — and that id differs from every prior row's id;
the call's return value itself carries no id. -/
theorem AddTransaction_inserts_pending_with_fresh_backend_id
    (clientID transactionType itemsSent itemsReceived notes : String)
    (db : AccountDatabase)
    (h : ∀ t ∈ db.transactions, t.transactionId < db.nextTransactionId) :
    (AddTransaction clientID transactionType itemsSent itemsReceived notes
      db).fst = .ok () ∧
    (AddTransaction clientID transactionType itemsSent itemsReceived notes
      db).snd.transactions = db.transactions ++
      [⟨db.nextTransactionId, clientID, transactionType, itemsSent,
        itemsReceived, notes, "Pending..."⟩] ∧
    ∀ t ∈ db.transactions, t.transactionId ≠ db.nextTransactionId := by
  refine ⟨rfl, rfl, ?_⟩
  intro t ht
  exact Nat.ne_of_lt (h t ht)

/-- Witness for the amended C9 at a concrete state with one prior
transaction. -/
theorem AddTransaction_inserts_pending_with_fresh_backend_id_witness :
    (∀ t ∈ dbTx1.transactions, t.transactionId < dbTx1.nextTransactionId) ∧
    ((AddTransaction "client2" "trade" "a" "b" "c" dbTx1).fst = .ok () ∧
     (AddTransaction "client2" "trade" "a" "b" "c" dbTx1).snd.transactions =
       dbTx1.transactions ++ [⟨dbTx1.nextTransactionId, "client2", "trade",
         "a", "b", "c", "Pending..."⟩] ∧
     ∀ t ∈ dbTx1.transactions, t.transactionId ≠ dbTx1.nextTransactionId) :=
  ⟨by decide, AddTransaction_inserts_pending_with_fresh_backend_id "client2"
    "trade" "a" "b" "c" dbTx1 (by decide)⟩
end AccountDB
